import Mathlib

/-!
Verification of the CSV validator (`src/csv_validator.py`).

The program is a linear pipeline: path validation, encoding check,
format check (row/column consistency scan), statistical analysis
(delegated to pandas), report formatting, and a CLI driver.

Shallow embedding notes:
* A CSV file, as seen through Python's `csv.reader`, is modelled as a
  `CsvStream`: the list of records the reader yields in order, followed by
  an optional terminal error (either a `csv.Error` or any other exception
  such as an I/O fault) raised when the reader is advanced past the last
  successfully parsed record.  The quote-aware parsing itself is the
  standard library's `csv` module, an external collaborator per the spec.
* `chardet.detect`, pandas cell typing / null detection, and `tabulate`
  are external libraries; they are passed as abstract function parameters.
* Python's `str.strip()` is modelled faithfully over `List Char`
  (`pyStrip`), and `pandas.DataFrame.drop_duplicates` (full-row value
  equality, keeping the first occurrence) as `dropDuplicates`.
-/

namespace CsvValidator

/-- A parsed CSV record: the list of field strings of one row. -/
abbrev Record := List String

/-- An entry of `details['mismatched_rows']` in `check_csv_format`. -/
structure Mismatch where
  row_number : Nat
  expected_columns : Nat
  actual_columns : Nat
deriving DecidableEq

/-- The `details` dictionary built by `check_csv_format`. -/
structure Details where
  header_columns : Nat
  data_columns : List Nat
  mismatched_rows : List Mismatch
deriving DecidableEq

/-- Initial value of `details` (line 44-48 of the source). -/
def Details.init : Details := ⟨0, [], []⟩

/-- An error raised by the CSV reader while being advanced: either a
`csv.Error` (malformed record, NUL byte, field-size limit, ...) caught by
`except csv.Error`, or any other exception (I/O fault, decode error, the
`StopIteration` of an exhausted reader, ...) caught by `except Exception`. -/
inductive StreamErr where
  | csvErr (msg : String)
  | otherErr (msg : String)
deriving DecidableEq

/-- A CSV file as seen through `csv.reader`: the records successfully
yielded, in file order, then optionally a terminal error raised when the
reader is advanced past them.  A file that cannot even be opened is the
stream with no records and an `otherErr`. -/
structure CsvStream where
  records : List Record
  err : Option StreamErr
deriving DecidableEq

/-- Characters stripped by Python's `str.strip()` (ASCII whitespace). -/
def isPySpace (c : Char) : Bool :=
  c = ' ' || c = '\t' || c = '\n' || c = '\x0b' || c = '\x0c' || c = '\r'

/-- Remove the trailing run of whitespace characters from a character list
(the right half of Python's `str.strip()`). -/
def rstripA : List Char → List Char
  | [] => []
  | c :: cs =>
    match rstripA cs with
    | [] => if isPySpace c then [] else [c]
    | r => c :: r

/-- Character-list model of Python's `str.strip()`. -/
def stripData (l : List Char) : List Char :=
  rstripA (l.dropWhile isPySpace)

/-- Python's `str.strip()` on strings. -/
def pyStrip (s : String) : String := ⟨stripData s.data⟩

/-- Boolean test that `p` is a prefix of `s`, used to classify the failure
messages of `check_csv_format` by their fixed leading text. -/
def strStartsWith (s p : String) : Bool := p.data.isPrefixOf s.data

/-- The line appended to `error_msg` for one mismatch (line 73). -/
def mismatchLine (m : Mismatch) : String :=
  "Row " ++ toString m.row_number ++ ": Expected " ++
    toString m.expected_columns ++ " columns, found " ++
    toString m.actual_columns ++ "\n"

/-- The scanning loop of `check_csv_format` (lines 61-68): for each data
row, starting at row number `i`, append its field count to
`data_columns`, and append a mismatch entry when it differs from the
header's field count. -/
def scanRows (headerLen : Nat) : Nat → List Record → Details → Details
  | _, [], d => d
  | i, r :: rs, d =>
    scanRows headerLen (i + 1) rs
      { d with
        data_columns := d.data_columns ++ [r.length],
        mismatched_rows :=
          if r.length ≠ headerLen then
            d.mismatched_rows ++ [⟨i, headerLen, r.length⟩]
          else d.mismatched_rows }

/-- Embedding of `check_csv_format` (lines 34-80): returns
`(is_valid, message, details)`.  The first record is the header; an empty
header reports "Empty CSV file"; otherwise all remaining records are
scanned, and a terminal reader error — reached only when iteration gets
that far — is caught and reported with the prefix of the corresponding
`except` clause.  A `StopIteration` on a recordless stream is caught by
`except Exception` and stringifies to the empty message. -/
def check_csv_format (s : CsvStream) : Bool × String × Details :=
  match s.records with
  | [] =>
    match s.err with
    | some (.csvErr m) => (false, "CSV format error: " ++ m, Details.init)
    | some (.otherErr m) => (false, "Error reading CSV: " ++ m, Details.init)
    | none => (false, "Error reading CSV: ", Details.init)
  | header :: rest =>
    if header.isEmpty then (false, "Empty CSV file", Details.init)
    else
      let d := scanRows header.length 2 rest ⟨header.length, [], []⟩
      match s.err with
      | some (.csvErr m) => (false, "CSV format error: " ++ m, d)
      | some (.otherErr m) => (false, "Error reading CSV: " ++ m, d)
      | none =>
        if d.mismatched_rows.isEmpty then (true, "CSV format is valid", d)
        else
          (false,
            pyStrip (d.mismatched_rows.foldl (fun acc m => acc ++ mismatchLine m)
              "Column count mismatch found in the following rows:\n"),
            d)

/-- Closed form of the mismatch entries recorded by the scan starting at
row number `i`: one entry per row whose field count differs from the
header's, in row order. -/
def mismatchesFrom (headerLen : Nat) (i : Nat) : List Record → List Mismatch
  | [] => []
  | r :: rs =>
    (if r.length ≠ headerLen then [⟨i, headerLen, r.length⟩] else []) ++
      mismatchesFrom headerLen (i + 1) rs

/-- Folding string concatenation over a list equals appending the joined
list to the start value. -/
theorem strFoldlAppend (t : List String) : ∀ s : String,
    t.foldl (· ++ ·) s = s ++ String.join t := by
  induction t with
  | nil => intro s; exact (String.append_empty s).symm
  | cons a t ih =>
    intro s
    have hj : String.join (a :: t) = a ++ String.join t := by
      show List.foldl (· ++ ·) ("" ++ a) t = _
      exact ih ("" ++ a)
    simp only [List.foldl_cons, hj, ih (s ++ a), String.append_assoc]

/-- The `error_msg` accumulation loop (lines 71-73) in closed form. -/
theorem foldlMismatchLine (l : List Mismatch) (s : String) :
    l.foldl (fun acc m => acc ++ mismatchLine m) s =
      s ++ String.join (l.map mismatchLine) := by
  rw [← strFoldlAppend (l.map mismatchLine) s, List.foldl_map]

/-- The scanning loop in closed form: it appends all field counts to
`data_columns` and all mismatch entries to `mismatched_rows`. -/
theorem scanRows_eq (headerLen : Nat) (rows : List Record) : ∀ (i : Nat) (d : Details),
    scanRows headerLen i rows d =
      ⟨d.header_columns, d.data_columns ++ rows.map List.length,
        d.mismatched_rows ++ mismatchesFrom headerLen i rows⟩ := by
  induction rows with
  | nil => intro i d; simp [scanRows, mismatchesFrom]
  | cons r rs ih =>
    intro i d
    by_cases h : r.length = headerLen
    · simp [scanRows, mismatchesFrom, h, ih]
    · simp [scanRows, mismatchesFrom, h, ih, List.append_assoc]

/-- Membership in the closed-form mismatch list: exactly the rows whose
field count differs from the header's, with row number `i + index`,
expected count the header's, actual count the row's. -/
theorem mem_mismatchesFrom (headerLen : Nat) (rows : List Record) : ∀ (i : Nat) (mm : Mismatch),
    mm ∈ mismatchesFrom headerLen i rows ↔
      ∃ j r, rows.get? j = some r ∧ r.length ≠ headerLen ∧
        mm = ⟨i + j, headerLen, r.length⟩ := by
  induction rows with
  | nil => intro i mm; simp [mismatchesFrom]
  | cons r rs ih =>
    intro i mm
    constructor
    · intro hmem
      by_cases h : r.length = headerLen
      · simp only [mismatchesFrom, h, ne_eq, not_true_eq_false, if_false,
          List.nil_append] at hmem
        obtain ⟨j, r', hj, hne, hval⟩ := (ih (i + 1) mm).mp hmem
        exact ⟨j + 1, r', by simpa using hj, hne, by
          simpa [Nat.add_assoc, Nat.add_comm 1 j] using hval⟩
      · simp only [mismatchesFrom, h, ne_eq, not_false_eq_true, if_true,
          List.singleton_append, List.mem_cons] at hmem
        rcases hmem with hmm | hmem
        · exact ⟨0, r, rfl, h, by simpa using hmm⟩
        · obtain ⟨j, r', hj, hne, hval⟩ := (ih (i + 1) mm).mp hmem
          exact ⟨j + 1, r', by simpa using hj, hne, by
            simpa [Nat.add_assoc, Nat.add_comm 1 j] using hval⟩
    · rintro ⟨j, r', hj, hne, hval⟩
      match j with
      | 0 =>
        simp only [List.get?_cons_zero, Option.some.injEq] at hj
        subst hj
        simp [mismatchesFrom, hne, hval]
      | j + 1 =>
        simp only [List.get?_cons_succ] at hj
        have : mm ∈ mismatchesFrom headerLen (i + 1) rs :=
          (ih (i + 1) mm).mpr ⟨j, r', hj, hne, by
            simpa [Nat.add_assoc, Nat.add_comm 1 j] using hval⟩
        cases h : decide (r.length = headerLen) <;>
          simp_all [mismatchesFrom]

/-- Every recorded row number is at least the starting row number. -/
theorem mismatchesFrom_row_le (headerLen : Nat) (rows : List Record) :
    ∀ (i : Nat), ∀ mm ∈ mismatchesFrom headerLen i rows, i ≤ mm.row_number := by
  induction rows with
  | nil => intro i mm hmm; simp [mismatchesFrom] at hmm
  | cons r rs ih =>
    intro i mm hmm
    by_cases h : r.length = headerLen
    · simp only [mismatchesFrom, h, ne_eq, not_true_eq_false, if_false,
        List.nil_append] at hmm
      exact Nat.le_of_succ_le (ih (i + 1) mm hmm)
    · simp only [mismatchesFrom, h, ne_eq, not_false_eq_true, if_true,
        List.singleton_append, List.mem_cons] at hmm
      rcases hmm with hmm | hmm
      · simp [hmm]
      · exact Nat.le_of_succ_le (ih (i + 1) mm hmm)

/-- The recorded row numbers are strictly increasing: every mismatched row
appears exactly once, in ascending row-number order. -/
theorem mismatchesFrom_sorted (headerLen : Nat) (rows : List Record) : ∀ (i : Nat),
    ((mismatchesFrom headerLen i rows).map Mismatch.row_number).Sorted (· < ·) := by
  induction rows with
  | nil => intro i; simp [mismatchesFrom]
  | cons r rs ih =>
    intro i
    by_cases h : r.length = headerLen
    · simp only [mismatchesFrom, h, ne_eq, not_true_eq_false, if_false,
        List.nil_append]
      exact ih (i + 1)
    · simp only [mismatchesFrom, h, ne_eq, not_false_eq_true, if_true,
        List.singleton_append, List.map_cons]
      refine List.sorted_cons.mpr ⟨?_, ih (i + 1)⟩
      intro b hb
      simp only [List.mem_map] at hb
      obtain ⟨mm, hmm, hval⟩ := hb
      have := mismatchesFrom_row_le headerLen rs (i + 1) mm hmm
      omega

/-- The scan records no mismatch exactly when every row's field count
equals the header's. -/
theorem mismatchesFrom_eq_nil (headerLen : Nat) (rows : List Record) : ∀ (i : Nat),
    mismatchesFrom headerLen i rows = [] ↔ ∀ r ∈ rows, r.length = headerLen := by
  induction rows with
  | nil => intro i; simp [mismatchesFrom]
  | cons r rs ih =>
    intro i
    by_cases h : r.length = headerLen
    · simp [mismatchesFrom, h, ih (i + 1)]
    · simp [mismatchesFrom, h]

/-- Helper: an explicitly non-nil list is not `isEmpty`. -/
theorem isEmpty_false_of_ne_nil {α : Type} {l : List α} (h : l ≠ []) :
    l.isEmpty = false := by
  cases l with
  | nil => exact absurd rfl h
  | cons a t => rfl

/-- Helper: the result of `check_csv_format` on an error-free stream with a
non-empty header, in closed form. -/
theorem check_csv_format_eq (header : Record) (rest : List Record)
    (hne : header ≠ []) :
    check_csv_format ⟨header :: rest, none⟩ =
      (if mismatchesFrom header.length 2 rest = [] then
        (true, "CSV format is valid",
          ⟨header.length, rest.map List.length, mismatchesFrom header.length 2 rest⟩)
      else
        (false,
          pyStrip ("Column count mismatch found in the following rows:\n" ++
            String.join ((mismatchesFrom header.length 2 rest).map mismatchLine)),
          ⟨header.length, rest.map List.length, mismatchesFrom header.length 2 rest⟩)) := by
  have hE : header.isEmpty = false := isEmpty_false_of_ne_nil hne
  have hscan : scanRows header.length 2 rest ⟨header.length, [], []⟩ =
      ⟨header.length, rest.map List.length, mismatchesFrom header.length 2 rest⟩ := by
    simpa using scanRows_eq header.length rest 2 ⟨header.length, [], []⟩
  simp only [check_csv_format, hE, Bool.false_eq_true, if_false, hscan,
    foldlMismatchLine]
  by_cases hm : mismatchesFrom header.length 2 rest = []
  · simp [hm, List.isEmpty_nil]
  · simp [hm, isEmpty_false_of_ne_nil hm]

/-- C1: For every CSV file whose header parses to at least one field and
whose parse raises no error, the format check returns valid with message
"CSV format is valid" when every data row's field count equals the
header's; when at least one differs, it returns invalid, every differing
row appears exactly once in the mismatch list in ascending row-number
order (rows numbered from 2, header being row 1) with expected the header
count and actual that row's count, and the message enumerates each
mismatch as "Row N: Expected E columns, found A" with trailing whitespace
trimmed. -/
theorem check_csv_format_consistency_scan (header : Record) (rest : List Record)
    (hne : header ≠ []) :
    ((∀ r ∈ rest, r.length = header.length) →
      check_csv_format ⟨header :: rest, none⟩ =
        (true, "CSV format is valid",
          ⟨header.length, rest.map List.length, []⟩)) ∧
    ((∃ r ∈ rest, r.length ≠ header.length) →
      (check_csv_format ⟨header :: rest, none⟩).1 = false ∧
      (check_csv_format ⟨header :: rest, none⟩).2.2.mismatched_rows =
        mismatchesFrom header.length 2 rest ∧
      (∀ mm : Mismatch,
        mm ∈ (check_csv_format ⟨header :: rest, none⟩).2.2.mismatched_rows ↔
          ∃ j r, rest.get? j = some r ∧ r.length ≠ header.length ∧
            mm = ⟨2 + j, header.length, r.length⟩) ∧
      (((check_csv_format ⟨header :: rest, none⟩).2.2.mismatched_rows).map
          Mismatch.row_number).Sorted (· < ·) ∧
      (check_csv_format ⟨header :: rest, none⟩).2.1 =
        pyStrip ("Column count mismatch found in the following rows:\n" ++
          String.join ((mismatchesFrom header.length 2 rest).map mismatchLine))) := by
  rw [check_csv_format_eq header rest hne]
  constructor
  · intro hall
    rw [if_pos ((mismatchesFrom_eq_nil header.length rest 2).mpr hall)]
    simp [(mismatchesFrom_eq_nil header.length rest 2).mpr hall]
  · rintro ⟨r, hr, hlen⟩
    have hm : mismatchesFrom header.length 2 rest ≠ [] := by
      intro h
      exact hlen ((mismatchesFrom_eq_nil header.length rest 2).mp h r hr)
    rw [if_neg hm]
    refine ⟨rfl, rfl, ?_, mismatchesFrom_sorted header.length rest 2, rfl⟩
    intro mm
    exact mem_mismatchesFrom header.length rest 2 mm

/-- Witness for C1 at a concrete input: header of two fields, one matching
data row and one short data row. -/
theorem check_csv_format_consistency_scan_witness :
    (["a", "b"] : Record) ≠ [] ∧
    (check_csv_format ⟨[["a", "b"], ["1", "2"], ["1"]], none⟩).1 = false ∧
    (check_csv_format ⟨[["a", "b"], ["1", "2"], ["1"]], none⟩).2.2.mismatched_rows =
      mismatchesFrom 2 2 [["1", "2"], ["1"]] ∧
    (check_csv_format ⟨[["a", "b"], ["1", "2"], ["1"]], none⟩).2.1 =
      "Column count mismatch found in the following rows:\nRow 3: Expected 2 columns, found 1" := by
  have h := (check_csv_format_consistency_scan ["a", "b"] [["1", "2"], ["1"]]
    (by decide)).2 ⟨["1"], by simp, by decide⟩
  exact ⟨by decide, h.1, h.2.1, by decide⟩

/-- C2 counterexample: on a stream whose header parses to two fields and
whose reader then raises a `csv.Error` (e.g. a NUL byte on the second
line), the result is invalid although `mismatched_rows` is empty and the
header was non-empty — so validity is not equivalent to "no mismatches
and non-empty header". -/
theorem check_csv_format_valid_iff_counterexample :
    ¬ ((check_csv_format ⟨[["a", "b"]], some (.csvErr "line contains NUL")⟩).1 = true ↔
      ((check_csv_format ⟨[["a", "b"]], some (.csvErr "line contains NUL")⟩).2.2.mismatched_rows = [] ∧
        (check_csv_format ⟨[["a", "b"]], some (.csvErr "line contains NUL")⟩).2.2.header_columns ≠ 0)) := by
  decide

/-- C2 (amended): `is_valid` is true iff `mismatched_rows` is empty, the
header was non-empty, and no reader error was raised during the scan. -/
theorem check_csv_format_valid_iff (s : CsvStream) :
    (check_csv_format s).1 = true ↔
      (s.err = none ∧ (check_csv_format s).2.2.mismatched_rows = [] ∧
        (check_csv_format s).2.2.header_columns ≠ 0) := by
  obtain ⟨records, err⟩ := s
  match records with
  | [] =>
    cases err with
    | none => simp [check_csv_format, Details.init]
    | some e => cases e <;> simp [check_csv_format, Details.init]
  | header :: rest =>
    by_cases hne : header = []
    · subst hne
      simp [check_csv_format, Details.init]
    · have hE := isEmpty_false_of_ne_nil hne
      have hlen : header.length ≠ 0 := by
        exact Nat.pos_iff_ne_zero.mp (List.length_pos.mpr hne)
      cases err with
      | none =>
        rw [check_csv_format_eq header rest hne]
        by_cases hm : mismatchesFrom header.length 2 rest = []
        · simp [hm, hlen]
        · simp [hm]
      | some e =>
        have hscan : scanRows header.length 2 rest ⟨header.length, [], []⟩ =
            ⟨header.length, rest.map List.length, mismatchesFrom header.length 2 rest⟩ := by
          simpa using scanRows_eq header.length rest 2 ⟨header.length, [], []⟩
        cases e <;> simp [check_csv_format, hE, hscan]

/-- The reader error at the end of a stream is actually raised only when
iteration gets that far: always when even the header read fails, and
otherwise only when the header is non-empty (an empty header returns
early, before the reader is advanced again). -/
def errorReached (s : CsvStream) : Prop :=
  s.records = [] ∨ ∃ h t, s.records = h :: t ∧ h ≠ []

/-- Helper: a list is a Boolean prefix of itself followed by anything. -/
theorem listIsPrefixOf_append (p l : List Char) : p.isPrefixOf (p ++ l) = true := by
  induction p with
  | nil => simp [List.isPrefixOf]
  | cons c cs ih => simp [List.isPrefixOf, ih]

/-- Helper: prefix test fails when the first characters differ. -/
theorem isPrefixOf_cons_ne {a b : Char} (p l : List Char) (h : (a == b) = false) :
    (a :: p).isPrefixOf (b :: l) = false := by
  simp [List.isPrefixOf, h]

/-- Helper: prefix test fails when the second characters differ. -/
theorem isPrefixOf_cons_cons_ne {a b c : Char} (p l : List Char) (h : (b == c) = false) :
    (a :: b :: p).isPrefixOf (a :: c :: l) = false := by
  simp [List.isPrefixOf, h]

/-- Helper: stripping keeps the head of a list headed by a non-space. -/
theorem rstripA_cons_not_space (c : Char) (cs : List Char) (hc : isPySpace c = false) :
    ∃ t, rstripA (c :: cs) = c :: t := by
  cases h : rstripA cs with
  | nil => exact ⟨[], by simp [rstripA, h, hc]⟩
  | cons x r => exact ⟨x :: r, by simp [rstripA, h]⟩

/-- Helper: stripping a string that starts with "Col" keeps its first
characters. -/
theorem stripData_col (cs : List Char) :
    ∃ t, stripData ('C' :: 'o' :: 'l' :: cs) = 'C' :: 'o' :: 'l' :: t := by
  obtain ⟨t1, h1⟩ := rstripA_cons_not_space 'l' cs (by decide)
  refine ⟨t1, ?_⟩
  have hdrop : ('C' :: 'o' :: 'l' :: cs).dropWhile isPySpace = 'C' :: 'o' :: 'l' :: cs := by
    rw [List.dropWhile_cons]
    simp [show isPySpace 'C' = false from by decide]
  rw [stripData, hdrop]
  rw [show rstripA ('C' :: 'o' :: 'l' :: cs) =
    match rstripA ('o' :: 'l' :: cs) with
    | [] => if isPySpace 'C' then [] else ['C']
    | r => 'C' :: r from rfl]
  rw [show rstripA ('o' :: 'l' :: cs) =
    match rstripA ('l' :: cs) with
    | [] => if isPySpace 'o' then [] else ['o']
    | r => 'o' :: r from rfl]
  rw [h1]

/-- Helper: "Error reading CSV: …" is never classified as a parse error. -/
theorem readMsg_not_parseMsg (m : String) :
    strStartsWith ("Error reading CSV: " ++ m) "CSV format error: " = false := by
  rw [strStartsWith,
    show ("Error reading CSV: " ++ m).data =
      'E' :: ("rror reading CSV: ".data ++ m.data) from by
        rw [String.data_append]; rfl,
    show "CSV format error: ".data = 'C' :: "SV format error: ".data from rfl]
  exact isPrefixOf_cons_ne _ _ (by decide)

/-- Helper: "CSV format error: …" is never classified as a read error. -/
theorem parseMsg_not_readMsg (m : String) :
    strStartsWith ("CSV format error: " ++ m) "Error reading CSV: " = false := by
  rw [strStartsWith,
    show ("CSV format error: " ++ m).data =
      'C' :: ("SV format error: ".data ++ m.data) from by
        rw [String.data_append]; rfl,
    show "Error reading CSV: ".data = 'E' :: "rror reading CSV: ".data from rfl]
  exact isPrefixOf_cons_ne _ _ (by decide)

/-- Helper: the column-mismatch message is classified as neither a parse
error nor a read error, whatever the mismatches were. -/
theorem mismatchMsg_not_err (x : String) :
    strStartsWith (pyStrip ("Column count mismatch found in the following rows:\n" ++ x))
      "CSV format error: " = false ∧
    strStartsWith (pyStrip ("Column count mismatch found in the following rows:\n" ++ x))
      "Error reading CSV: " = false := by
  have hdata : ("Column count mismatch found in the following rows:\n" ++ x).data =
      'C' :: 'o' :: 'l' ::
        ("umn count mismatch found in the following rows:\n".data ++ x.data) := by
    rw [String.data_append]; rfl
  obtain ⟨t, ht⟩ := stripData_col
    ("umn count mismatch found in the following rows:\n".data ++ x.data)
  rw [pyStrip, hdata, ht]
  constructor
  · rw [strStartsWith,
      show "CSV format error: ".data = 'C' :: 'S' :: "V format error: ".data from rfl]
    exact isPrefixOf_cons_cons_ne _ _ (by decide)
  · rw [strStartsWith,
      show "Error reading CSV: ".data = 'E' :: "rror reading CSV: ".data from rfl]
    exact isPrefixOf_cons_ne _ _ (by decide)

/-- Helper: a string is classified by appending its own fixed prefix. -/
theorem strStartsWith_append_self (p m : String) :
    strStartsWith (p ++ m) p = true := by
  rw [strStartsWith, String.data_append]
  exact listIsPrefixOf_append _ _

/-- C5: The format check fails with the parse-error category ("CSV format
error: …", the `except csv.Error` clause) exactly when the underlying CSV
parser raises a malformed-record error and the reader actually reaches
it, with a message wrapping the parser's diagnostic text; any other
failure raised by the reader is wrapped with the read-error category
("Error reading CSV: …", the `except Exception` clause); and on an
error-free stream with a non-empty header — in particular on
inconsistent column counts — neither error category ever appears: the
outcome is only a result value. -/
theorem check_csv_format_error_classes (s : CsvStream) :
    (∀ m, s.err = some (.csvErr m) → errorReached s →
      (check_csv_format s).1 = false ∧
      (check_csv_format s).2.1 = "CSV format error: " ++ m) ∧
    (∀ m, s.err = some (.otherErr m) → errorReached s →
      (check_csv_format s).1 = false ∧
      (check_csv_format s).2.1 = "Error reading CSV: " ++ m) ∧
    (strStartsWith (check_csv_format s).2.1 "CSV format error: " = true →
      ∃ m, s.err = some (.csvErr m)) ∧
    (∀ header rest, s.records = header :: rest → header ≠ [] → s.err = none →
      strStartsWith (check_csv_format s).2.1 "CSV format error: " = false ∧
      strStartsWith (check_csv_format s).2.1 "Error reading CSV: " = false) := by
  obtain ⟨records, err⟩ := s
  have hclean : ∀ header : Record, ∀ rest : List Record, header ≠ [] →
      strStartsWith (check_csv_format ⟨header :: rest, none⟩).2.1
        "CSV format error: " = false ∧
      strStartsWith (check_csv_format ⟨header :: rest, none⟩).2.1
        "Error reading CSV: " = false := by
    intro header rest hne
    rw [check_csv_format_eq header rest hne]
    by_cases hm : mismatchesFrom header.length 2 rest = []
    · rw [if_pos hm]
      constructor
      · show strStartsWith "CSV format is valid" "CSV format error: " = false
        decide
      · show strStartsWith "CSV format is valid" "Error reading CSV: " = false
        decide
    · rw [if_neg hm]
      exact mismatchMsg_not_err _
  refine ⟨?_, ?_, ?_, ?_⟩
  · intro m hm hr
    subst hm
    match records, hr with
    | [], _ => exact ⟨rfl, rfl⟩
    | header :: rest, hr =>
      have hne : header ≠ [] := by
        rcases hr with h | ⟨h', t', ht, hne⟩
        · exact absurd h (by simp)
        · cases ht; exact hne
      have hE := isEmpty_false_of_ne_nil hne
      simp [check_csv_format, hE]
  · intro m hm hr
    subst hm
    match records, hr with
    | [], _ => exact ⟨rfl, rfl⟩
    | header :: rest, hr =>
      have hne : header ≠ [] := by
        rcases hr with h | ⟨h', t', ht, hne⟩
        · exact absurd h (by simp)
        · cases ht; exact hne
      have hE := isEmpty_false_of_ne_nil hne
      simp [check_csv_format, hE]
  · intro hsw
    match records, err with
    | [], none =>
      rw [show (check_csv_format ⟨[], none⟩).2.1 = "Error reading CSV: " from rfl]
        at hsw
      exact absurd hsw (by decide)
    | [], some (.csvErr m) => exact ⟨m, rfl⟩
    | [], some (.otherErr m) =>
      rw [show (check_csv_format ⟨[], some (.otherErr m)⟩).2.1 =
        "Error reading CSV: " ++ m from rfl] at hsw
      exact absurd hsw (by simp [readMsg_not_parseMsg m])
    | header :: rest, err =>
      by_cases hne : header = []
      · subst hne
        rw [show (check_csv_format ⟨[] :: rest, err⟩).2.1 = "Empty CSV file" from by
          simp [check_csv_format]] at hsw
        exact absurd hsw (by decide)
      · have hE := isEmpty_false_of_ne_nil hne
        match err with
        | none =>
          exact absurd hsw (by simp [(hclean header rest hne).1])
        | some (.csvErr m) => exact ⟨m, rfl⟩
        | some (.otherErr m) =>
          rw [show (check_csv_format ⟨header :: rest, some (.otherErr m)⟩).2.1 =
            "Error reading CSV: " ++ m from by simp [check_csv_format, hE]] at hsw
          exact absurd hsw (by simp [readMsg_not_parseMsg m])
  · intro header rest hrec hne herr
    subst herr
    cases hrec
    exact hclean header rest hne

/-- Witness for C5: a stream whose very first reader step raises a
`csv.Error` yields the parse-error message, and a stream raising an
I/O fault after a clean header yields the read-error message. -/
theorem check_csv_format_error_classes_witness :
    ((check_csv_format ⟨[], some (.csvErr "line contains NUL")⟩).1 = false ∧
      (check_csv_format ⟨[], some (.csvErr "line contains NUL")⟩).2.1 =
        "CSV format error: " ++ "line contains NUL") ∧
    ((check_csv_format ⟨[["a", "b"]], some (.otherErr "read failure")⟩).1 = false ∧
      (check_csv_format ⟨[["a", "b"]], some (.otherErr "read failure")⟩).2.1 =
        "Error reading CSV: " ++ "read failure") := by
  constructor
  · exact (check_csv_format_error_classes
      ⟨[], some (.csvErr "line contains NUL")⟩).1 "line contains NUL" rfl (Or.inl rfl)
  · exact (check_csv_format_error_classes
      ⟨[["a", "b"]], some (.otherErr "read failure")⟩).2.1 "read failure" rfl
      (Or.inr ⟨["a", "b"], [], rfl, by decide⟩)

/-- Keep-first deduplication with an accumulator of already-seen values:
the model of `pandas.DataFrame.drop_duplicates` (exact full-row value
equality, first occurrence kept), an external capability per spec 4.4. -/
def dropDupAux {α : Type} [DecidableEq α] (seen : List α) : List α → List α
  | [] => []
  | x :: xs => if x ∈ seen then dropDupAux seen xs else x :: dropDupAux (x :: seen) xs

/-- Modelled from the spec: `drop_duplicates` — remove exact full-row
duplicates, keeping the first occurrence of each value. -/
def dropDuplicates {α : Type} [DecidableEq α] (l : List α) : List α :=
  dropDupAux [] l

/-- An in-memory table as produced by `pandas.read_csv`: the header as
column names, and the data rows, with cells of an arbitrary
decidable-equality type standing for the library's inferred values. -/
structure DataFrame (α : Type) where
  columns : List String
  rows : List (List α)

/-- The dictionary returned by `analyze_csv` (lines 96-111). -/
structure AnalysisResult where
  total_rows : Nat
  total_columns : Nat
  columns : List String
  null_counts : List (String × Nat)
  duplicate_rows : Nat
  column_stats : List (String × Nat × String)

/-- Column `j` of a data frame, as the list of its present cells. -/
def colOf {α : Type} (df : DataFrame α) (j : Nat) : List α :=
  df.rows.filterMap (fun r => r.get? j)

/-- Embedding of `analyze_csv` (lines 82-112): row/column counts,
per-column null counts, the duplicate-row count
`len(df) - len(df.drop_duplicates())`, and per-column distinct-value
count and inferred type.  Null detection and type inference are pandas
capabilities, passed in as `isNull` and `dtypeOf`. -/
def analyze_csv {α : Type} [DecidableEq α] (isNull : α → Bool)
    (dtypeOf : List α → String) (df : DataFrame α) : AnalysisResult :=
  { total_rows := df.rows.length
    total_columns := df.columns.length
    columns := df.columns
    null_counts := df.columns.enum.map (fun p => (p.2, (colOf df p.1).countP isNull))
    duplicate_rows := df.rows.length - (dropDuplicates df.rows).length
    column_stats := df.columns.enum.map (fun p =>
      (p.2, (dropDuplicates ((colOf df p.1).filter (fun a => !isNull a))).length,
        dtypeOf (colOf df p.1))) }

/-- Python's `str.lower()` (ASCII lowering, character by character). -/
def pyLower (s : String) : String := ⟨s.data.map Char.toLower⟩

/-- The two failure modes of `validate_file_path`: `FileNotFoundError`
(line 29) and `ValueError` for a non-.csv extension (line 31). -/
inductive PathError where
  | notFound (msg : String)
  | badExt (msg : String)
deriving DecidableEq

/-- The user-facing text of a path-validation failure. -/
def PathError.msg : PathError → String
  | .notFound m => m
  | .badExt m => m

/-- The environment of one run: what the filesystem and clock answer.
`suffix` and `stem` are the pathlib-computed extension and stem of
`pathStr` (pathlib is an external collaborator); `content` is the file's
raw bytes; `encOpenErr` is the error raised when opening the file in
binary mode, if any; `stream` is what `csv.reader` yields in text mode;
`writeErr` is the error raised when writing the report file, if any. -/
structure Env where
  pathStr : String
  pathExists : Bool
  suffix : String
  stem : String
  content : List Nat
  encOpenErr : Option String
  stream : CsvStream
  writeErr : Option String
  now : String

/-- Embedding of `validate_file_path` (lines 13-32): the path must exist
and carry a case-insensitive `.csv` extension; only filesystem metadata
is consulted. -/
def validate_file_path (env : Env) : Except PathError String :=
  if env.pathExists = false then
    .error (.notFound ("The file " ++ env.pathStr ++ " does not exist"))
  else if (pyLower env.suffix) ≠ ".csv" then
    .error (.badExt ("The file " ++ env.pathStr ++ " is not a CSV file"))
  else .ok env.pathStr

/-- Embedding of `check_file_encoding` (lines 180-201): read the first
10000 bytes, run the chardet detector on them (`detect`, an external
capability, returning the detected encoding name or `None`), and succeed
iff the lowercased name is "utf-8".  When the detector returns `None`,
the `.lower()` call raises `AttributeError`, caught by the blanket
`except`; an unreadable file is caught the same way. -/
def check_file_encoding (detect : List Nat → Option String) (env : Env) :
    Bool × String :=
  match env.encOpenErr with
  | some m => (false, "Error checking file encoding: " ++ m)
  | none =>
    match detect (env.content.take 10000) with
    | none =>
      (false, "Error checking file encoding: 'NoneType' object has no attribute 'lower'")
    | some enc =>
      if (pyLower enc) = "utf-8" then (true, "File is UTF-8 encoded")
      else (false, "File is " ++ enc ++ " encoded, not UTF-8")

/-- The report file name generated at write time (lines 214-217). -/
def report_filename (env : Env) : String :=
  env.stem ++ "_validation_report_" ++ env.now ++ ".txt"

/-- Embedding of `write_report_to_file` (lines 203-225): returns the
created path, or `none` plus a warning printed to standard error when the
write raises. -/
def write_report_to_file (env : Env) : Option String × Option String :=
  match env.writeErr with
  | some m => (none, some ("Warning: Could not write report to file: " ++ m))
  | none => (some (report_filename env), none)

/-- Embedding of `format_report` (lines 114-178).  `tab` is the external
`tabulate` grid renderer (rows, then headers). -/
def format_report (tab : List (List String) → List String → String)
    (results : AnalysisResult) (fc : Bool × String × Details) : String :=
  let base := ["CSV Format Validation", "====================",
    if fc.1 then "Status: ✓ Valid" else "Status: ✗ Invalid",
    "Details: " ++ fc.2.1]
  let align :=
    if fc.2.2.header_columns > 0 then
      ["\nColumn Alignment Details", "--------------------",
        "Header columns: " ++ toString fc.2.2.header_columns] ++
      (if fc.2.2.data_columns ≠ [] then
        (let u := fc.2.2.data_columns.dedup.insertionSort (· ≤ ·)
         if 1 < u.length then
          ["Warning: Multiple column counts found in data rows",
            "Column counts found: " ++ String.intercalate ", " (u.map toString)]
         else
          ["All data rows have " ++ toString (fc.2.2.data_columns.headD 0) ++ " columns"])
       else [])
    else []
  let basic := ["Basic Statistics", "====================",
    "Total Rows: " ++ toString results.total_rows,
    "Total Columns: " ++ toString results.total_columns,
    "Duplicate Rows: " ++ toString results.duplicate_rows, ""]
  let nulls := ["Null Value Analysis", "====================",
    tab (results.null_counts.map (fun p => [p.1, toString p.2]))
      ["Column", "Null Count"], ""]
  let stats := ["Column Statistics", "====================",
    tab (results.column_stats.map (fun p => [p.1, p.2.2, toString p.2.1]))
      ["Column", "Data Type", "Unique Values"]]
  String.intercalate "\n" (base ++ align ++ [""] ++ basic ++ nulls ++ stats)

/-- The external collaborators consumed by one run: the chardet detector
and pandas' null detection and type inference, plus the tabulate
renderer. -/
structure Ext where
  detect : List Nat → Option String
  isNull : String → Bool
  dtypeOf : List String → String
  tab : List (List String) → List String → String

/-- The observable outcome of one run of `main`: the exit code, the texts
passed to each `print` call on standard output and standard error in
order, and whether the analyzer ran, the formatter ran, and the report
file was written. -/
structure MainOutcome where
  exitCode : Nat
  stdoutPrints : List String
  stderrPrints : List String
  analyzerInvoked : Bool
  formatterInvoked : Bool
  reportFileWritten : Bool
deriving DecidableEq

/-- Embedding of `main` (lines 227-273): validate the path, check the
encoding, check the format; on success analyze (pandas re-reads the same
records, with cells modelled by their field strings), format, print the
report, and write the report file, downgrading a write failure to a
warning; on any validation failure print one error to standard error and
exit 1. -/
def runMain (ext : Ext) (env : Env) : MainOutcome :=
  match validate_file_path env with
  | .error e => ⟨1, [], ["Error: " ++ e.msg], false, false, false⟩
  | .ok _ =>
    let ec := check_file_encoding ext.detect env
    if ec.1 = false then ⟨1, [], ["Error: " ++ ec.2], false, false, false⟩
    else
      let fc := check_csv_format env.stream
      if fc.1 then
        let df : DataFrame String := ⟨env.stream.records.headD [], env.stream.records.tail⟩
        let results := analyze_csv ext.isNull ext.dtypeOf df
        let report := format_report ext.tab results fc
        match write_report_to_file env with
        | (some p, _) =>
          ⟨0, [report, "\nReport has been written to: " ++ p], [], true, true, true⟩
        | (none, some w) => ⟨0, [report], [w], true, true, false⟩
        | (none, none) => ⟨0, [report], [], true, true, false⟩
      else ⟨1, [], ["Error: " ++ fc.2.1], false, false, false⟩

/-- Membership in the keep-first deduplication: the values of the list
not already seen. -/
theorem mem_dropDupAux {α : Type} [DecidableEq α] (l : List α) : ∀ (seen : List α) (a : α),
    a ∈ dropDupAux seen l ↔ (a ∈ l ∧ a ∉ seen) := by
  induction l with
  | nil => intro seen a; simp [dropDupAux]
  | cons x xs ih =>
    intro seen a
    by_cases hx : x ∈ seen
    · rw [dropDupAux, if_pos hx, ih]
      simp only [List.mem_cons]
      constructor
      · rintro ⟨h, hs⟩; exact ⟨Or.inr h, hs⟩
      · rintro ⟨h | h, hs⟩
        · subst h; exact absurd hx hs
        · exact ⟨h, hs⟩
    · rw [dropDupAux, if_neg hx]
      simp only [List.mem_cons, ih]
      constructor
      · rintro (rfl | ⟨h, hs⟩)
        · exact ⟨Or.inl rfl, hx⟩
        · refine ⟨Or.inr h, fun hc => hs ?_⟩
          exact Or.inr hc
      · rintro ⟨rfl | h, hs⟩
        · exact Or.inl rfl
        · by_cases hax : a = x
          · exact Or.inl hax
          · exact Or.inr ⟨h, by simp [List.mem_cons, hax, hs]⟩

/-- The keep-first deduplication has no duplicate values. -/
theorem nodup_dropDupAux {α : Type} [DecidableEq α] (l : List α) : ∀ (seen : List α),
    (dropDupAux seen l).Nodup := by
  induction l with
  | nil => intro seen; simp [dropDupAux]
  | cons x xs ih =>
    intro seen
    by_cases hx : x ∈ seen
    · simpa [dropDupAux, hx] using ih seen
    · rw [dropDupAux, if_neg hx]
      refine List.nodup_cons.mpr ⟨?_, ih (x :: seen)⟩
      intro hmem
      exact ((mem_dropDupAux xs (x :: seen) x).mp hmem).2 (List.mem_cons_self x seen)

/-- The number of rows kept by the keep-first deduplication is the number
of distinct values under full-value equality. -/
theorem dropDuplicates_length {α : Type} [DecidableEq α] (l : List α) :
    (dropDuplicates l).length = l.toFinset.card := by
  have hnd := nodup_dropDupAux l []
  have hfs : (dropDuplicates l).toFinset = l.toFinset := by
    ext a
    simp [dropDuplicates, mem_dropDupAux, List.mem_toFinset]
  rw [← hfs]
  exact (List.toFinset_card_of_nodup hnd).symm

/-- C3: For every CSV file accepted by the format check, the analyzer's
duplicate-row count equals the total row count minus the number of
distinct rows, where distinctness is exact full-row value equality
keeping the first occurrence. -/
theorem analyze_csv_duplicate_rows (isNull : String → Bool)
    (dtypeOf : List String → String) (header : Record) (rows : List Record)
    (_hacc : (check_csv_format ⟨header :: rows, none⟩).1 = true) :
    (analyze_csv isNull dtypeOf (⟨header, rows⟩ : DataFrame String)).duplicate_rows =
      (analyze_csv isNull dtypeOf (⟨header, rows⟩ : DataFrame String)).total_rows -
        rows.toFinset.card := by
  show rows.length - (dropDuplicates rows).length = rows.length - rows.toFinset.card
  rw [dropDuplicates_length]

/-- Witness for C3, scenario C of the spec: the file `a,b\n1,2\n1,2\n`
passes the format check and its analysis reports one duplicate row. -/
theorem analyze_csv_duplicate_rows_witness :
    (check_csv_format ⟨[["a", "b"], ["1", "2"], ["1", "2"]], none⟩).1 = true ∧
    (analyze_csv (fun _ => false) (fun _ => "object")
      (⟨["a", "b"], [["1", "2"], ["1", "2"]]⟩ : DataFrame String)).duplicate_rows =
      (analyze_csv (fun _ => false) (fun _ => "object")
        (⟨["a", "b"], [["1", "2"], ["1", "2"]]⟩ : DataFrame String)).total_rows -
        ([["1", "2"], ["1", "2"]] : List (List String)).toFinset.card ∧
    (analyze_csv (fun _ => false) (fun _ => "object")
      (⟨["a", "b"], [["1", "2"], ["1", "2"]]⟩ : DataFrame String)).duplicate_rows = 1 := by
  refine ⟨by decide, ?_, by decide⟩
  exact analyze_csv_duplicate_rows (fun _ => false) (fun _ => "object")
    ["a", "b"] [["1", "2"], ["1", "2"]] (by decide)

/-- Helper: a stream whose first record is empty is reported as an empty
CSV file, whatever follows. -/
theorem check_csv_format_empty_header (s : CsvStream) (t : List Record)
    (h : s.records = [] :: t) :
    check_csv_format s = (false, "Empty CSV file", Details.init) := by
  obtain ⟨recs, err⟩ := s
  simp only at h
  subst h
  simp [check_csv_format]

/-- C4: For every input file whose first record parses to zero fields, the
format check reports invalid with message exactly "Empty CSV file", and
the statistical analyzer is never invoked on that file. -/
theorem empty_header_never_analyzed (ext : Ext) (env : Env)
    (h : env.stream.records.head? = some ([] : Record)) :
    check_csv_format env.stream = (false, "Empty CSV file", Details.init) ∧
    (runMain ext env).analyzerInvoked = false := by
  obtain ⟨t, ht⟩ : ∃ t, env.stream.records = [] :: t := by
    cases hr : env.stream.records with
    | nil => rw [hr] at h; simp at h
    | cons a u =>
      rw [hr] at h
      simp only [List.head?_cons, Option.some.injEq] at h
      exact ⟨u, by rw [h]⟩
  have hchk := check_csv_format_empty_header env.stream t ht
  refine ⟨hchk, ?_⟩
  have hfc : (check_csv_format env.stream).1 = false := by rw [hchk]
  rw [runMain]
  cases hv : validate_file_path env with
  | error e => rfl
  | ok p =>
    by_cases he : (check_file_encoding ext.detect env).1 = false
    · simp [he]
    · simp [he, hfc]

/-- Witness for C4: a file whose first line is empty. -/
theorem empty_header_never_analyzed_witness :
    (⟨[([] : Record), ["a"]], none⟩ : CsvStream).records.head? = some ([] : Record) ∧
    check_csv_format ⟨[([] : Record), ["a"]], none⟩ =
      (false, "Empty CSV file", Details.init) ∧
    (runMain ⟨fun _ => some "utf-8", fun _ => false, fun _ => "object", fun _ _ => ""⟩
      ⟨"data.csv", true, ".csv", "data", [], none, ⟨[([] : Record), ["a"]], none⟩,
        none, "20260101_000000"⟩).analyzerInvoked = false := by
  have h := empty_header_never_analyzed
    ⟨fun _ => some "utf-8", fun _ => false, fun _ => "object", fun _ _ => ""⟩
    ⟨"data.csv", true, ".csv", "data", [], none, ⟨[([] : Record), ["a"]], none⟩,
      none, "20260101_000000"⟩ rfl
  exact ⟨rfl, h.1, h.2⟩

/-- C9: the path validator fails with the not-found error when the path
does not exist, fails with the invalid-extension error when it exists but
its pathlib extension is not `.csv` case-insensitively, otherwise returns
the validated path; and it consults only path metadata, never the file's
content. -/
theorem validate_file_path_spec (env : Env) :
    (env.pathExists = false →
      validate_file_path env =
        .error (.notFound ("The file " ++ env.pathStr ++ " does not exist"))) ∧
    (env.pathExists = true → (pyLower env.suffix) ≠ ".csv" →
      validate_file_path env =
        .error (.badExt ("The file " ++ env.pathStr ++ " is not a CSV file"))) ∧
    (env.pathExists = true → (pyLower env.suffix) = ".csv" →
      validate_file_path env = .ok env.pathStr) ∧
    (∀ env' : Env, env'.pathStr = env.pathStr → env'.pathExists = env.pathExists →
      env'.suffix = env.suffix → validate_file_path env' = validate_file_path env) := by
  refine ⟨?_, ?_, ?_, ?_⟩
  · intro hp; simp [validate_file_path, hp]
  · intro hp hs; simp [validate_file_path, hp, hs]
  · intro hp hs; simp [validate_file_path, hp, hs]
  · intro env' h1 h2 h3; simp [validate_file_path, h1, h2, h3]

/-- Witness for C9, scenario E of the spec: the nonexistent path
`missing.csv` is rejected with the does-not-exist message. -/
theorem validate_file_path_spec_witness :
    validate_file_path
      ⟨"missing.csv", false, ".csv", "missing", [], none, ⟨[], none⟩, none, "t"⟩ =
      .error (.notFound ("The file " ++ "missing.csv" ++ " does not exist")) :=
  (validate_file_path_spec
    ⟨"missing.csv", false, ".csv", "missing", [], none, ⟨[], none⟩, none, "t"⟩).1 rfl

/-- C7: the encoding check depends only on the first 10000 bytes of the
file read in binary mode; with a readable file it succeeds exactly when
the detected encoding name lowercases to "utf-8"; and on any other
detected encoding it fails with a message reporting the detected name. -/
theorem check_file_encoding_spec (detect : List Nat → Option String) (env : Env) :
    (∀ env' : Env, env'.encOpenErr = env.encOpenErr →
      env'.content.take 10000 = env.content.take 10000 →
      check_file_encoding detect env' = check_file_encoding detect env) ∧
    (env.encOpenErr = none →
      ((check_file_encoding detect env).1 = true ↔
        ∃ e, detect (env.content.take 10000) = some e ∧ (pyLower e) = "utf-8")) ∧
    (∀ e, env.encOpenErr = none → detect (env.content.take 10000) = some e →
      (pyLower e) ≠ "utf-8" →
      check_file_encoding detect env = (false, "File is " ++ e ++ " encoded, not UTF-8")) := by
  refine ⟨?_, ?_, ?_⟩
  · intro env' h1 h2
    rw [check_file_encoding, check_file_encoding, h1, h2]
  · intro h0
    rw [check_file_encoding, h0]
    cases hd : detect (env.content.take 10000) with
    | none => simp [hd]
    | some e =>
      by_cases he : (pyLower e) = "utf-8"
      · simp [he]
      · simp [he]
  · intro e h0 hd he
    simp [check_file_encoding, h0, hd, he]

/-- Witness for C7: a detector reporting "ascii" makes the check fail and
report that name. -/
theorem check_file_encoding_spec_witness :
    check_file_encoding (fun _ => some "ascii")
      ⟨"data.csv", true, ".csv", "data", [65, 66], none, ⟨[], none⟩, none, "t"⟩ =
      (false, "File is " ++ "ascii" ++ " encoded, not UTF-8") :=
  (check_file_encoding_spec (fun _ => some "ascii")
    ⟨"data.csv", true, ".csv", "data", [65, 66], none, ⟨[], none⟩, none, "t"⟩).2.2
    "ascii" rfl rfl (by decide)

/-- C10: the encoding check is total at its interface: when the detector
returns no encoding name, or the file cannot be opened, it still returns
a `(false, message)` pair instead of propagating the exception. -/
theorem check_file_encoding_total (detect : List Nat → Option String) (env : Env) :
    (∀ m, env.encOpenErr = some m →
      check_file_encoding detect env =
        (false, "Error checking file encoding: " ++ m)) ∧
    (env.encOpenErr = none → detect (env.content.take 10000) = none →
      check_file_encoding detect env =
        (false,
          "Error checking file encoding: 'NoneType' object has no attribute 'lower'")) := by
  constructor
  · intro m hm
    rw [check_file_encoding, hm]
  · intro h0 hd
    rw [check_file_encoding, h0, hd]

/-- Witness for C10: an unreadable file still yields a failure pair. -/
theorem check_file_encoding_total_witness :
    check_file_encoding (fun _ => some "utf-8")
      ⟨"data.csv", true, ".csv", "data", [], some "Permission denied", ⟨[], none⟩,
        none, "t"⟩ =
      (false, "Error checking file encoding: " ++ "Permission denied") :=
  (check_file_encoding_total (fun _ => some "utf-8")
    ⟨"data.csv", true, ".csv", "data", [], some "Permission denied", ⟨[], none⟩,
      none, "t"⟩).1 "Permission denied" rfl

/-- A run on which path validation, the encoding check, or the format
check fails. -/
def pipelineFails (ext : Ext) (env : Env) : Prop :=
  (∃ e, validate_file_path env = .error e) ∨
  (validate_file_path env = .ok env.pathStr ∧
    (check_file_encoding ext.detect env).1 = false) ∨
  (validate_file_path env = .ok env.pathStr ∧
    (check_file_encoding ext.detect env).1 = true ∧
    (check_csv_format env.stream).1 = false)

/-- C6 counterexample: on a format-check failure the single error message
printed to standard error spans several lines (the mismatch enumeration
contains a newline), so the driver does not print a single-LINE error. -/
theorem runMain_failure_counterexample :
    (runMain ⟨fun _ => some "utf-8", fun _ => false, fun _ => "object", fun _ _ => ""⟩
      ⟨"data.csv", true, ".csv", "data", [], none, ⟨[["a", "b"], ["1"]], none⟩,
        none, "t"⟩).exitCode = 1 ∧
    ((runMain ⟨fun _ => some "utf-8", fun _ => false, fun _ => "object", fun _ _ => ""⟩
      ⟨"data.csv", true, ".csv", "data", [], none, ⟨[["a", "b"], ["1"]], none⟩,
        none, "t"⟩).stderrPrints.any (fun m => m.data.contains '\n')) = true := by
  decide

/-- C6 (amended): on any failing run the driver makes exactly one error
print to standard error (whose text may span several lines for format
mismatches), exits with status 1, prints nothing to standard output,
writes no report file, and invokes neither the analyzer nor the
formatter. -/
theorem runMain_failure_outcome (ext : Ext) (env : Env) (h : pipelineFails ext env) :
    (runMain ext env).exitCode = 1 ∧
    (runMain ext env).stderrPrints.length = 1 ∧
    (runMain ext env).stdoutPrints = [] ∧
    (runMain ext env).reportFileWritten = false ∧
    (runMain ext env).analyzerInvoked = false ∧
    (runMain ext env).formatterInvoked = false := by
  rcases h with ⟨e, hv⟩ | ⟨hv, he⟩ | ⟨hv, he, hf⟩
  · simp [runMain, hv]
  · simp [runMain, hv, he]
  · simp [runMain, hv, he, hf]

/-- Witness for C6 (amended) at a concrete failing run: a nonexistent
path. -/
theorem runMain_failure_outcome_witness :
    (runMain ⟨fun _ => some "utf-8", fun _ => false, fun _ => "object", fun _ _ => ""⟩
      ⟨"missing.csv", false, ".csv", "missing", [], none, ⟨[], none⟩,
        none, "t"⟩).exitCode = 1 ∧
    (runMain ⟨fun _ => some "utf-8", fun _ => false, fun _ => "object", fun _ _ => ""⟩
      ⟨"missing.csv", false, ".csv", "missing", [], none, ⟨[], none⟩,
        none, "t"⟩).reportFileWritten = false := by
  have h := runMain_failure_outcome
    ⟨fun _ => some "utf-8", fun _ => false, fun _ => "object", fun _ _ => ""⟩
    ⟨"missing.csv", false, ".csv", "missing", [], none, ⟨[], none⟩, none, "t"⟩
    (Or.inl ⟨.notFound ("The file " ++ "missing.csv" ++ " does not exist"), rfl⟩)
  exact ⟨h.1, h.2.2.2.1⟩

/-- C8: when the format check succeeds but writing the report file fails,
the driver emits one warning to standard error, still prints the full
report to standard output, writes no file, and exits with status 0. -/
theorem runMain_write_failure (ext : Ext) (env : Env) (m : String)
    (hv : validate_file_path env = .ok env.pathStr)
    (he : (check_file_encoding ext.detect env).1 = true)
    (hf : (check_csv_format env.stream).1 = true)
    (hw : env.writeErr = some m) :
    (runMain ext env).exitCode = 0 ∧
    (runMain ext env).stdoutPrints =
      [format_report ext.tab
        (analyze_csv ext.isNull ext.dtypeOf
          ⟨env.stream.records.headD [], env.stream.records.tail⟩)
        (check_csv_format env.stream)] ∧
    (runMain ext env).stderrPrints =
      ["Warning: Could not write report to file: " ++ m] ∧
    (runMain ext env).reportFileWritten = false := by
  have hwrite : write_report_to_file env =
      (none, some ("Warning: Could not write report to file: " ++ m)) := by
    rw [write_report_to_file, hw]
  simp [runMain, hv, he, hf, hwrite]

/-- Witness for C8: a valid two-row file whose report write raises. -/
theorem runMain_write_failure_witness :
    (runMain ⟨fun _ => some "utf-8", fun _ => false, fun _ => "object", fun _ _ => ""⟩
      ⟨"data.csv", true, ".csv", "data", [], none, ⟨[["a", "b"], ["1", "2"]], none⟩,
        some "No space left on device", "t"⟩).exitCode = 0 ∧
    (runMain ⟨fun _ => some "utf-8", fun _ => false, fun _ => "object", fun _ _ => ""⟩
      ⟨"data.csv", true, ".csv", "data", [], none, ⟨[["a", "b"], ["1", "2"]], none⟩,
        some "No space left on device", "t"⟩).stderrPrints =
      ["Warning: Could not write report to file: " ++ "No space left on device"] ∧
    (runMain ⟨fun _ => some "utf-8", fun _ => false, fun _ => "object", fun _ _ => ""⟩
      ⟨"data.csv", true, ".csv", "data", [], none, ⟨[["a", "b"], ["1", "2"]], none⟩,
        some "No space left on device", "t"⟩).reportFileWritten = false := by
  have h := runMain_write_failure
    ⟨fun _ => some "utf-8", fun _ => false, fun _ => "object", fun _ _ => ""⟩
    ⟨"data.csv", true, ".csv", "data", [], none, ⟨[["a", "b"], ["1", "2"]], none⟩,
      some "No space left on device", "t"⟩
    "No space left on device" rfl rfl (by decide) rfl
  exact ⟨h.1, h.2.2.1, h.2.2.2⟩

end CsvValidator
